import Mathlib

/-!
Shallow embedding of the Telegram moderation bot (`bot.py`).

The four JSON-backed tables (`WARNS`, `SETTINGS`, `NOTES`, `LOCKS`) and the
in-memory flood buckets become an explicit `BotState`.  Every outbound
Telegram API call made by a handler is recorded as an `Effect` in a trace;
an `Env` oracle decides whether each attempted call succeeds (a failing call
models the `BadRequest` / generic exceptions the Python code catches).
Handlers are pure state transformers `Env → BotState → Upd → BotState × List Effect`.
-/

namespace Bot

/-- Association-list dictionary, embedding a Python `dict`
(unique keys, insertion order preserved, update in place). -/
abbrev Dict (α β : Type) := List (α × β)

def dget {α β : Type} [DecidableEq α] : Dict α β → α → Option β
  | [], _ => none
  | (k, v) :: rest, k2 => if k = k2 then some v else dget rest k2

def dset {α β : Type} [DecidableEq α] : Dict α β → α → β → Dict α β
  | [], k, v => [(k, v)]
  | (k2, v2) :: rest, k, v =>
      if k2 = k then (k2, v) :: rest else (k2, v2) :: dset rest k v

/-- `dict.setdefault k v`: insert `v` under `k` only when `k` is absent. -/
def dsetdefault {α β : Type} [DecidableEq α] (d : Dict α β) (k : α) (v : β) : Dict α β :=
  match dget d k with
  | some _ => d
  | none => dset d k v

-- ============ CONSTANTS (bot.py top of file) ============

def FLOOD_WINDOW_SEC : Int := 10
def DEFAULT_FLOOD_LIMIT : Nat := 8
def DEFAULT_FLOOD_MUTE_MIN : Nat := 5
def MAX_WARNS_DEFAULT : Nat := 3
def FLOOD_BUCKET_CAP : Nat := 64

/-- One per-chat settings record (`chat_settings` default shape). -/
structure ChatSettings where
  welcome_on : Bool
  welcome_text : String
  rules_text : String
  max_warns : Nat
  flood_limit : Nat
  flood_mute_min : Nat
deriving Repr, DecidableEq

def defaultSettings : ChatSettings :=
  { welcome_on := true
    welcome_text := "Welcome {mention}! Please read the rules."
    rules_text := "No spam. Be respectful. Follow admin instructions."
    max_warns := MAX_WARNS_DEFAULT
    flood_limit := DEFAULT_FLOOD_LIMIT
    flood_mute_min := DEFAULT_FLOOD_MUTE_MIN }

/-- Per-chat lock flags (`chat_locks` default shape). -/
structure LockFlags where
  links : Bool
  media : Bool
  stickers : Bool
deriving Repr, DecidableEq

def defaultLocks : LockFlags :=
  { links := false, media := false, stickers := false }

/-- The whole mutable state of the process: the four persisted dicts plus the
in-memory `FLOOD_BUCKETS` (chat id → user id → deque of timestamps). -/
structure BotState where
  WARNS : Dict String (Dict String Nat)
  SETTINGS : Dict String ChatSettings
  NOTES : Dict String (Dict String String)
  LOCKS : Dict String LockFlags
  FLOOD_BUCKETS : Dict Int (Dict Int (List Int))
deriving Repr, DecidableEq

/-- Outbound API calls (and the `save_all` disk flush) recorded by handlers. -/
inductive Effect where
  | kickChatMember (chat user : Int)
  | unbanChatMember (chat user : Int)
  | deleteMessage (chat mid : Int)
  | restrictChatMember (chat user : Int) (canSend : Bool) (untilDate : Option Int)
  | sendMessage (chat : Int) (text : String)
  | replyText (text : String)
  | saveAll
  | getChatMember (chat user : Int)
deriving Repr, DecidableEq

/-- External world: owner id, the live chat-membership lookup
(`none` models an API/network failure of `get_chat_member`), and a success
oracle for every other attempted API call. -/
structure Env where
  OWNER_ID : Int
  chatMemberStatus : Int → Int → Option String
  apiOk : Effect → Bool
  errMsg : Effect → String

/-- The slice of a Telegram `Update` the handlers inspect. -/
structure Upd where
  chat_id : Int
  chat_type : String
  user_id : Int
  has_user : Bool
  user_name : String
  message_id : Int
  args : List String
  reply_to : Option (Int × Int)     -- (message id, author user id)
  entities : List String            -- entity type tags
  photo : Bool
  video : Bool
  document : Bool
  audio : Bool
  voice : Bool
  animation : Bool
  sticker : Bool
deriving Repr, DecidableEq

abbrev Handler := Env → BotState → Upd → BotState × List Effect

-- ============ HELPERS ============

/-- Python `str.isdigit()` for the ASCII arguments the bot receives. -/
def pyIsDigit (s : String) : Bool := !s.data.isEmpty && s.data.all Char.isDigit

/-- Python `int(s)` on a digit string. -/
def pyInt (s : String) : Nat :=
  s.data.foldl (fun n c => n * 10 + (c.toNat - 48)) 0

/-- Python `str.lower()` (character-wise case folding). -/
def pyLower (s : String) : String := ⟨s.data.map Char.toLower⟩

def mention_html (user_id : Int) (name : String) : String :=
  "<a>" ++ name ++ " " ++ toString user_id ++ "</a>"

def is_group (u : Upd) : Bool :=
  u.chat_type = "group" || u.chat_type = "supergroup"

def is_user_admin_in_chat (env : Env) (chat_id user_id : Int) : Bool :=
  match env.chatMemberStatus chat_id user_id with
  | some s => s = "administrator" || s = "creator"
  | none => false

/-- The `require_group_and_admin` decorator: group-only check first, then
owner-or-admin; the membership lookup (recorded as a `getChatMember` effect)
only happens when the owner check fails, mirroring Python `or` short-circuit. -/
def require_group_and_admin (func : Handler) : Handler := fun env st u =>
  if is_group u then
    if u.user_id = env.OWNER_ID then func env st u
    else if is_user_admin_in_chat env u.chat_id u.user_id then
      let r := func env st u
      (r.1, Effect.getChatMember u.chat_id u.user_id :: r.2)
    else (st, [Effect.getChatMember u.chat_id u.user_id, Effect.replyText "Admins only."])
  else (st, [Effect.replyText "This command must be used in groups."])

/-- `chat_settings`: lazily insert the default record, return the stored one. -/
def chat_settings (st : BotState) (chat_id : Int) : ChatSettings × BotState :=
  let key := toString chat_id
  let s := dsetdefault st.SETTINGS key defaultSettings
  ((dget s key).getD defaultSettings, { st with SETTINGS := s })

/-- `chat_locks`: lazily insert the default record, return the stored one. -/
def chat_locks (st : BotState) (chat_id : Int) : LockFlags × BotState :=
  let key := toString chat_id
  let s := dsetdefault st.LOCKS key defaultLocks
  ((dget s key).getD defaultLocks, { st with LOCKS := s })

def _get_target_from_reply_or_arg (u : Upd) : Option Int :=
  match u.reply_to with
  | some (_, uid) => some uid
  | none =>
    match u.args with
    | a :: _ => if pyIsDigit a then some (pyInt a : Int) else none
    | [] => none

/-- Warn count currently recorded for `(chat, user)` (0 when absent). -/
def warnCount (st : BotState) (chat_id target : Int) : Nat :=
  (dget ((dget st.WARNS (toString chat_id)).getD []) (toString target)).getD 0

/-- Flood-window deque currently recorded for `(chat, user)` ([] when absent). -/
def bucketOf (st : BotState) (chat_id user_id : Int) : List Int :=
  (dget ((dget st.FLOOD_BUCKETS chat_id).getD []) user_id).getD []

def setFlood (st : BotState) (chat_id user_id : Int) (dq : List Int) : BotState :=
  let inner := dset ((dget st.FLOOD_BUCKETS chat_id).getD []) user_id dq
  { st with FLOOD_BUCKETS := dset st.FLOOD_BUCKETS chat_id inner }

-- ============ WARNS ============

/-- Body of `/warn` (inside the admin decorator): increment, persist, report,
and on reaching the max attempt one kick; the counter reset and second
`save_all` sit inside the `try`, after the kick call. -/
def cmd_warn_body : Handler := fun env st u =>
  match _get_target_from_reply_or_arg u with
  | none => (st, [Effect.replyText "Reply to a user to /warn."])
  | some target =>
    let cid := toString u.chat_id
    let w0 := (dget st.WARNS cid).getD []
    let cnt := (dget w0 (toString target)).getD 0 + 1
    let st1 := { st with WARNS := dset st.WARNS cid (dset w0 (toString target) cnt) }
    let sp := chat_settings st1 u.chat_id
    let maxw := sp.1.max_warns
    let st2 := sp.2
    let eff1 : List Effect :=
      [Effect.saveAll, Effect.replyText ("Warned. " ++ toString cnt ++ "/" ++ toString maxw)]
    if maxw ≤ cnt then
      let kick := Effect.kickChatMember u.chat_id target
      if env.apiOk kick then
        let w2 := dset ((dget st2.WARNS cid).getD []) (toString target) 0
        ({ st2 with WARNS := dset st2.WARNS cid w2 },
         eff1 ++ [kick, Effect.saveAll, Effect.replyText "Max warns reached - user banned."])
      else
        (st2, eff1 ++ [kick, Effect.replyText ("Auto-ban failed: " ++ env.errMsg kick)])
    else (st2, eff1)

def cmd_warn : Handler := require_group_and_admin cmd_warn_body

/-- `/warnings`: public read, own target resolution, no persistence. -/
def cmd_warnings : Handler := fun _env st u =>
  let cid := toString u.chat_id
  match _get_target_from_reply_or_arg u with
  | none => (st, [Effect.replyText "Reply to user or pass user ID to see warnings."])
  | some target =>
    let cnt := (dget ((dget st.WARNS cid).getD []) (toString target)).getD 0
    let sp := chat_settings st u.chat_id
    (sp.2, [Effect.replyText ("Warnings: " ++ toString cnt ++ "/" ++ toString sp.1.max_warns)])

def cmd_setmaxwarns_body : Handler := fun _env st u =>
  match u.args with
  | [] => (st, [Effect.replyText "Usage: /setmaxwarns <number>"])
  | a :: _ =>
    if pyIsDigit a then
      let n := max 1 (min 10 (pyInt a))
      let sp := chat_settings st u.chat_id
      let st2 := { sp.2 with SETTINGS := dset sp.2.SETTINGS (toString u.chat_id) { sp.1 with max_warns := n } }
      (st2, [Effect.saveAll, Effect.replyText ("Max warns set to " ++ toString n ++ ".")])
    else (st, [Effect.replyText "Usage: /setmaxwarns <number>"])

def cmd_setmaxwarns : Handler := require_group_and_admin cmd_setmaxwarns_body

-- ============ RULES ============

/-- `/rules`: public read; `chat_settings` may lazily insert the default
record in memory, but nothing is flushed to disk. -/
def cmd_rules : Handler := fun _env st u =>
  let sp := chat_settings st u.chat_id
  (sp.2, [Effect.replyText sp.1.rules_text])

-- ============ PURGE ============

/-- Python `range(start, stop)` over `Int`, ascending. -/
def rangeUp (start stop : Int) : List Int :=
  (List.range (stop - start).toNat).map (fun i => start + Int.ofNat i)

/-- Python `range(start, start - n - 1, -1)`: `start, start-1, …, start-n`. -/
def rangeDown (start : Int) (n : Nat) : List Int :=
  (List.range (n + 1)).map (fun i => start - Int.ofNat i)

def cmd_purge_body : Handler := fun env st u =>
  let numericArg : Option Nat :=
    match u.args with
    | a :: _ => if pyIsDigit a then some (pyInt a) else none
    | [] => none
  match numericArg with
  | some nArg =>
    let n := min 300 nArg
    let ids := rangeDown u.message_id n
    let deleted := (ids.filter (fun mid => env.apiOk (Effect.deleteMessage u.chat_id mid))).length
    (st, ids.map (fun mid => Effect.deleteMessage u.chat_id mid)
          ++ [Effect.replyText ("Purged " ++ toString deleted ++ " messages.")])
  | none =>
    match u.reply_to with
    | none => (st, [Effect.replyText "Reply to a message with /purge OR use /purge <count>"])
    | some rp =>
      let ids := rangeUp rp.1 (u.message_id + 1)
      let deleted := (ids.filter (fun mid => env.apiOk (Effect.deleteMessage u.chat_id mid))).length
      (st, ids.map (fun mid => Effect.deleteMessage u.chat_id mid)
            ++ [Effect.replyText ("Purged " ++ toString deleted ++ " messages (best effort).")])

def cmd_purge : Handler := require_group_and_admin cmd_purge_body

-- ============ NOTES ============

def cmd_save_body : Handler := fun _env st u =>
  if u.args.length < 2 then (st, [Effect.replyText "Usage: /save <name> <text>"])
  else
    match u.args with
    | [] => (st, [Effect.replyText "Usage: /save <name> <text>"])
    | a :: rest =>
      let name := pyLower a
      let text := String.intercalate " " rest
      let cid := toString u.chat_id
      let inner := dset ((dget st.NOTES cid).getD []) name text
      ({ st with NOTES := dset st.NOTES cid inner },
       [Effect.saveAll, Effect.replyText ("Note " ++ name ++ " saved.")])

def cmd_save : Handler := require_group_and_admin cmd_save_body

/-- `/get`: public read; Python `if not txt` treats the empty string like a
missing note. -/
def cmd_get : Handler := fun _env st u =>
  match u.args with
  | [] => (st, [Effect.replyText "Usage: /get <name>"])
  | a :: _ =>
    let name := pyLower a
    let cid := toString u.chat_id
    match dget ((dget st.NOTES cid).getD []) name with
    | none => (st, [Effect.replyText "Note not found."])
    | some txt =>
      if txt = "" then (st, [Effect.replyText "Note not found."])
      else (st, [Effect.replyText txt])

-- ============ LOCKS ============

def LOCKABLES : List String := ["links", "media", "stickers"]

def setLockByName (l : LockFlags) (t : String) (b : Bool) : LockFlags :=
  if t = "links" then { l with links := b }
  else if t = "media" then { l with media := b }
  else if t = "stickers" then { l with stickers := b }
  else l

def cmd_lock_body : Handler := fun _env st u =>
  match u.args with
  | [] => (st, [Effect.replyText "Usage: /lock <links|media|stickers>"])
  | a :: _ =>
    if pyLower a ∈ LOCKABLES then
      let t := pyLower a
      let lp := chat_locks st u.chat_id
      let st2 := { lp.2 with LOCKS := dset lp.2.LOCKS (toString u.chat_id) (setLockByName lp.1 t true) }
      (st2, [Effect.saveAll, Effect.replyText ("Locked " ++ t ++ ".")])
    else (st, [Effect.replyText "Usage: /lock <links|media|stickers>"])

def cmd_lock : Handler := require_group_and_admin cmd_lock_body

def cmd_unlock_body : Handler := fun _env st u =>
  match u.args with
  | [] => (st, [Effect.replyText "Usage: /unlock <links|media|stickers>"])
  | a :: _ =>
    if pyLower a ∈ LOCKABLES then
      let t := pyLower a
      let lp := chat_locks st u.chat_id
      let st2 := { lp.2 with LOCKS := dset lp.2.LOCKS (toString u.chat_id) (setLockByName lp.1 t false) }
      (st2, [Effect.saveAll, Effect.replyText ("Unlocked " ++ t ++ ".")])
    else (st, [Effect.replyText "Usage: /unlock <links|media|stickers>"])

def cmd_unlock : Handler := require_group_and_admin cmd_unlock_body

-- ============ ENFORCEMENT (locks + anti-flood) ============

def hasLinkEntity (u : Upd) : Bool :=
  u.entities.any (fun t => t = "url" || t = "text_link")

def hasMediaContent (u : Upd) : Bool :=
  u.photo || u.video || u.document || u.audio || u.voice || u.animation

inductive LockKind where
  | links
  | media
  | stickers
deriving Repr, DecidableEq

/-- The first enabled lock the message violates, in source order
links → media → stickers. -/
def firstLockMatch (locks : LockFlags) (u : Upd) : Option LockKind :=
  if locks.links && hasLinkEntity u then some LockKind.links
  else if locks.media && hasMediaContent u then some LockKind.media
  else if locks.stickers && u.sticker then some LockKind.stickers
  else none

/-- Lock checks: at most one `delete_message` attempt; the Boolean says
whether the handler stops here (the delete succeeded).  A failing delete
raises inside the `try`, is swallowed, and control falls through to the
flood accounting. -/
def lockPhase (env : Env) (locks : LockFlags) (u : Upd) : List Effect × Bool :=
  match firstLockMatch locks u with
  | some _ =>
    let del := Effect.deleteMessage u.chat_id u.message_id
    ([del], env.apiOk del)
  | none => ([], false)

/-- `deque(maxlen=64).append`: drop from the front on overflow. -/
def dequeAppend (cap : Nat) (dq : List Int) (x : Int) : List Int :=
  let d := dq ++ [x]
  d.drop (d.length - cap)

/-- The `while dq and now - dq[0] > FLOOD_WINDOW_SEC: dq.popleft()` loop. -/
def evictOld (now : Int) : List Int → List Int
  | [] => []
  | t :: rest => if now - t > FLOOD_WINDOW_SEC then evictOld now rest else t :: rest

/-- Anti-flood accounting: append, evict, and mute-and-clear past the limit.
`dq.clear()` runs only after both the restrict and the announcement succeed. -/
def floodPhase (env : Env) (st : BotState) (u : Upd) (now : Int) : BotState × List Effect :=
  let sp := chat_settings st u.chat_id
  let limit := sp.1.flood_limit
  let mute_min := sp.1.flood_mute_min
  let st1 := sp.2
  if u.has_user then
    let dq1 := evictOld now (dequeAppend FLOOD_BUCKET_CAP (bucketOf st1 u.chat_id u.user_id) now)
    if decide (dq1.length > limit) then
      let rEff := Effect.restrictChatMember u.chat_id u.user_id false (some (now + (mute_min : Int) * 60))
      if env.apiOk rEff then
        let sEff := Effect.sendMessage u.chat_id
          ("Flood detected: muted " ++ mention_html u.user_id u.user_name ++ " for " ++ toString mute_min ++ " min.")
        if env.apiOk sEff then
          (setFlood st1 u.chat_id u.user_id [], [rEff, sEff])
        else
          (setFlood st1 u.chat_id u.user_id dq1, [rEff, sEff])
      else
        (setFlood st1 u.chat_id u.user_id dq1, [rEff])
    else (setFlood st1 u.chat_id u.user_id dq1, [])
  else (st1, [])

/-- The per-message passive pipeline (`enforcement_handler`). -/
def enforcement_handler (env : Env) (st : BotState) (u : Upd) (now : Int) :
    BotState × List Effect :=
  if is_group u then
    let lp := chat_locks st u.chat_id
    let locks := lp.1
    let st1 := lp.2
    let phase := lockPhase env locks u
    if phase.2 then (st1, phase.1)
    else
      let fp := floodPhase env st1 u now
      (fp.1, phase.1 ++ fp.2)
  else (st, [])

/-- Deliver a sequence of plain messages (one per timestamp) through the
passive pipeline, accumulating the effect trace. -/
def runEnforce (env : Env) (st : BotState) (u : Upd) : List Int → BotState × List Effect
  | [] => (st, [])
  | now :: rest =>
    let r := enforcement_handler env st u now
    let k := runEnforce env r.1 u rest
    (k.1, r.2 ++ k.2)

-- ============ FIXTURES (concrete environments, states, updates) ============

/-- Environment in which every attempted API call succeeds. -/
def envAllOk : Env :=
  { OWNER_ID := 7
    chatMemberStatus := fun _ _ => none
    apiOk := fun _ => true
    errMsg := fun _ => "err" }

/-- Environment in which `kick_chat_member` raises `BadRequest` and all
other calls succeed. -/
def envKickFail : Env :=
  { envAllOk with
    apiOk := fun e => match e with | Effect.kickChatMember _ _ => false | _ => true }

/-- Environment in which the `get_chat_member` lookup fails. -/
def envLookupFail : Env :=
  { envAllOk with OWNER_ID := 99, chatMemberStatus := fun _ _ => none }

/-- A state in which chat 1 already carries the default settings and locks. -/
def stInit : BotState :=
  { WARNS := [], SETTINGS := [("1", defaultSettings)], NOTES := [],
    LOCKS := [("1", defaultLocks)], FLOOD_BUCKETS := [] }

/-- A completely fresh state (no chat seen yet, as after first start). -/
def stEmptyAll : BotState :=
  { WARNS := [], SETTINGS := [], NOTES := [], LOCKS := [], FLOOD_BUCKETS := [] }

/-- `stInit` with user 2 already carrying two warns in chat 1. -/
def stTwoWarns : BotState := { stInit with WARNS := [("1", [("2", 2)])] }

/-- A plain group message from user 2 in chat 1 (no entities, no media). -/
def updPlain : Upd :=
  { chat_id := 1, chat_type := "group", user_id := 2, has_user := true,
    user_name := "u", message_id := 0, args := [], reply_to := none,
    entities := [], photo := false, video := false, document := false,
    audio := false, voice := false, animation := false, sticker := false }

/-- The owner invoking a command (replying to message 5 by user 2). -/
def updOwnerReply : Upd := { updPlain with user_id := 7, reply_to := some (5, 2) }

/-- Recognize a kick attempt in an effect trace. -/
def isKickEff : Effect → Bool
  | Effect.kickChatMember _ _ => true
  | _ => false

/-- Recognize a message-deletion attempt in an effect trace. -/
def isDeleteEff : Effect → Bool
  | Effect.deleteMessage _ _ => true
  | _ => false

/-- A state whose chat-1/user-2 flood window already holds two timestamps. -/
def stBucket : BotState := { stInit with FLOOD_BUCKETS := [(1, [(2, [95, 100])])] }

/-- `stInit` with the links lock enabled for chat 1. -/
def stLinksLocked : BotState :=
  { stInit with LOCKS := [("1", { links := true, media := false, stickers := false })] }

/-- The owner running a command with numeric argument 1 from message 100. -/
def updNum1 : Upd := { updPlain with user_id := 7, args := ["1"], message_id := 100 }

/-- The owner running a command with a bad lock-name argument. -/
def updLockBad : Upd := { updPlain with user_id := 7, args := ["badname"] }

/-- A group message numbered 42 carrying a URL entity. -/
def updLink : Upd := { updPlain with entities := ["url"], message_id := 42 }

/-- The owner running a command with one string argument. -/
def updArg (a : String) : Upd := { updPlain with user_id := 7, args := [a] }

/-- The owner saving note Foo with text hello. -/
def updSaveFoo : Upd := { updPlain with user_id := 7, args := ["Foo", "hello"] }

/-- Anyone reading back note foo. -/
def updGetFoo : Upd := { updPlain with args := ["foo"] }

/-- The owner overwriting the same note as FOO with text bye. -/
def updSaveFOO : Upd := { updPlain with user_id := 7, args := ["FOO", "bye"] }

-- ============ DICTIONARY LEMMAS ============

theorem dget_dset_self {α β : Type} [DecidableEq α] (d : Dict α β) (k : α) (v : β) :
    dget (dset d k v) k = some v := by
  induction d with
  | nil => simp [dget, dset]
  | cons hd tl ih =>
    obtain ⟨k2, v2⟩ := hd
    by_cases h : k2 = k
    · subst h; simp [dget, dset]
    · simp [dget, dset, h, ih]

theorem dget_dset_ne {α β : Type} [DecidableEq α] (d : Dict α β) (k k2 : α) (v : β)
    (h : k ≠ k2) : dget (dset d k v) k2 = dget d k2 := by
  induction d with
  | nil => simp [dget, dset, h]
  | cons hd tl ih =>
    obtain ⟨k3, v3⟩ := hd
    by_cases h3 : k3 = k
    · subst h3; simp [dget, dset, h]
    · simp [dget, dset, h3, ih]

theorem dget_dsetdefault_isSome {α β : Type} [DecidableEq α] (d : Dict α β) (k : α) (v : β) :
    (dget (dsetdefault d k v) k).isSome = true := by
  unfold dsetdefault
  cases h : dget d k with
  | none => simp [dget_dset_self]
  | some w => simp [h]

theorem mem_keys_dset {α β : Type} [DecidableEq α] (d : Dict α β) (k a : α) (v : β) :
    a ∈ (dset d k v).map Prod.fst ↔ a ∈ d.map Prod.fst ∨ a = k := by
  induction d with
  | nil => simp [dset]
  | cons hd tl ih =>
    obtain ⟨k2, v2⟩ := hd
    by_cases h2 : k2 = k
    · subst h2; simp [dset]; tauto
    · simp [dset, h2, ih]; tauto

/-- `dset` preserves key uniqueness. -/
theorem keys_nodup_dset {α β : Type} [DecidableEq α] (d : Dict α β) (k : α) (v : β)
    (h : (d.map Prod.fst).Nodup) : ((dset d k v).map Prod.fst).Nodup := by
  induction d with
  | nil => simp [dset]
  | cons hd tl ih =>
    obtain ⟨k2, v2⟩ := hd
    simp only [List.map_cons, List.nodup_cons] at h
    by_cases h2 : k2 = k
    · subst h2; simpa [dset] using h
    · simp only [dset, if_neg h2, List.map_cons, List.nodup_cons]
      refine ⟨?_, ih h.2⟩
      intro hmem
      rw [mem_keys_dset] at hmem
      rcases hmem with hm | rfl
      · exact h.1 hm
      · exact h2 rfl

/-- With unique keys, `dset` leaves exactly one entry under the written key. -/
theorem countP_dset_key {α β : Type} [DecidableEq α] (d : Dict α β) (k : α) (v : β)
    (h : (d.map Prod.fst).Nodup) :
    (dset d k v).countP (fun e => decide (e.1 = k)) = 1 := by
  induction d with
  | nil => simp [dset, List.countP_cons]
  | cons hd tl ih =>
    obtain ⟨k2, v2⟩ := hd
    simp only [List.map_cons, List.nodup_cons] at h
    by_cases h2 : k2 = k
    · subst h2
      simp only [dset, if_pos rfl, List.countP_cons]
      have h0 : tl.countP (fun e => decide (e.1 = k2)) = 0 := by
        rw [List.countP_eq_zero]
        intro e he
        simp only [decide_eq_true_eq]
        intro hk
        exact h.1 (List.mem_map.mpr ⟨e, he, hk⟩)
      simp [h0]
    · simp only [dset, if_neg h2, List.countP_cons]
      have hc := ih h.2
      simp [h2, hc]

-- ============ STATE HELPER LEMMAS ============

theorem chat_settings_fst (st : BotState) (c : Int) :
    (chat_settings st c).1 = (dget st.SETTINGS (toString c)).getD defaultSettings := by
  unfold chat_settings dsetdefault
  cases h : dget st.SETTINGS (toString c) with
  | none => simp [h, dget_dset_self]
  | some s => simp [h]

theorem chat_locks_fst (st : BotState) (c : Int) :
    (chat_locks st c).1 = (dget st.LOCKS (toString c)).getD defaultLocks := by
  unfold chat_locks dsetdefault
  cases h : dget st.LOCKS (toString c) with
  | none => simp [h, dget_dset_self]
  | some s => simp [h]

theorem bucketOf_setFlood (st : BotState) (c uy : Int) (dq : List Int) :
    bucketOf (setFlood st c uy dq) c uy = dq := by
  unfold bucketOf setFlood
  simp [dget_dset_self]

theorem setFlood_SETTINGS (st : BotState) (c uy : Int) (dq : List Int) :
    (setFlood st c uy dq).SETTINGS = st.SETTINGS := rfl

theorem setFlood_LOCKS (st : BotState) (c uy : Int) (dq : List Int) :
    (setFlood st c uy dq).LOCKS = st.LOCKS := rfl

-- ============ FLOOD DEQUE LEMMAS ============

theorem dequeAppend_of_lt (cap : Nat) (l : List Int) (x : Int) (h : l.length < cap) :
    dequeAppend cap l x = l ++ [x] := by
  unfold dequeAppend
  have h0 : l.length + 1 - cap = 0 := by omega
  simp [h0]

theorem length_dequeAppend_le (cap : Nat) (l : List Int) (x : Int) :
    (dequeAppend cap l x).length ≤ cap := by
  unfold dequeAppend
  simp only [List.length_drop, List.length_append, List.length_singleton]
  omega

theorem length_evictOld_le (now : Int) (l : List Int) :
    (evictOld now l).length ≤ l.length := by
  induction l with
  | nil => simp [evictOld]
  | cons a rest ih =>
    unfold evictOld
    split
    · exact le_trans ih (by simp)
    · simp

theorem evictOld_of_fresh (now : Int) (l : List Int)
    (h : ∀ t ∈ l, now - t ≤ FLOOD_WINDOW_SEC) : evictOld now l = l := by
  cases l with
  | nil => rfl
  | cons a rest =>
    unfold evictOld
    rw [if_neg]
    have := h a (by simp)
    omega

theorem evictOld_fresh (now : Int) (l : List Int) (h : l.Pairwise (· ≤ ·)) :
    ∀ t ∈ evictOld now l, now - t ≤ FLOOD_WINDOW_SEC := by
  induction l with
  | nil => simp [evictOld]
  | cons a rest ih =>
    rw [List.pairwise_cons] at h
    unfold evictOld
    split
    · exact ih h.2
    · next hna =>
      intro t ht
      rcases List.mem_cons.mp ht with rfl | hmem
      · omega
      · have := h.1 t hmem
        omega

theorem pairwise_dequeAppend (cap : Nat) (l : List Int) (x : Int)
    (h : l.Pairwise (· ≤ ·)) (hx : ∀ t ∈ l, t ≤ x) :
    (dequeAppend cap l x).Pairwise (· ≤ ·) := by
  have happ : (l ++ [x]).Pairwise (· ≤ ·) := by
    rw [List.pairwise_append]
    refine ⟨h, List.pairwise_singleton _ _, ?_⟩
    intro a ha b hb
    simp only [List.mem_singleton] at hb
    subst hb
    exact hx a ha
  exact List.Pairwise.sublist (List.drop_sublist _ _) happ

/-- After flood accounting the `(chat, user)` bucket is either the
append-then-evict result or (mute fired and the send succeeded) empty. -/
theorem floodPhase_bucket (env : Env) (st : BotState) (u : Upd) (now : Int)
    (hu : u.has_user = true) :
    bucketOf (floodPhase env st u now).1 u.chat_id u.user_id
      = evictOld now (dequeAppend FLOOD_BUCKET_CAP (bucketOf st u.chat_id u.user_id) now)
    ∨ bucketOf (floodPhase env st u now).1 u.chat_id u.user_id = [] := by
  have hbeq : bucketOf (chat_settings st u.chat_id).2 u.chat_id u.user_id
      = bucketOf st u.chat_id u.user_id := rfl
  unfold floodPhase
  simp only [hu, if_true, hbeq]
  split
  · split
    · split
      · right
        exact bucketOf_setFlood _ _ _ _
      · left
        exact bucketOf_setFlood _ _ _ _
    · left
      exact bucketOf_setFlood _ _ _ _
  · left
    exact bucketOf_setFlood _ _ _ _

theorem chat_locks_default (st : BotState) (hl : dget st.LOCKS "1" = some defaultLocks) :
    chat_locks st 1 = (defaultLocks, st) := by
  unfold chat_locks dsetdefault
  simp only [show toString (1:Int) = "1" from rfl, hl]
  rfl

theorem chat_settings_default (st : BotState)
    (hs : dget st.SETTINGS "1" = some defaultSettings) :
    chat_settings st 1 = (defaultSettings, st) := by
  unfold chat_settings dsetdefault
  simp only [show toString (1:Int) = "1" from rfl, hs]
  rfl

-- ============ CLAIM C5 ============

/-- Claim C5: for every chat/user pair, after any append to that pair's flood
window (the flood accounting step of the enforcement pipeline, `floodPhase`)
the window holds at most 64 timestamps and holds no timestamp older than 10
seconds relative to the time of the append.  The entries present before the
append are the timestamps of earlier appends, hence nondecreasing and at most
`now`; those facts are the two ordering hypotheses. -/
theorem flood_window_invariant (env : Env) (st : BotState) (u : Upd) (now : Int)
    (hu : u.has_user = true)
    (hsort : (bucketOf st u.chat_id u.user_id).Pairwise (· ≤ ·))
    (hle : ∀ t ∈ bucketOf st u.chat_id u.user_id, t ≤ now) :
    (bucketOf (floodPhase env st u now).1 u.chat_id u.user_id).length ≤ 64 ∧
    ∀ t ∈ bucketOf (floodPhase env st u now).1 u.chat_id u.user_id, now - t ≤ 10 := by
  have hp : (dequeAppend FLOOD_BUCKET_CAP (bucketOf st u.chat_id u.user_id) now).Pairwise
      (· ≤ ·) := pairwise_dequeAppend _ _ _ hsort hle
  rcases floodPhase_bucket env st u now hu with h | h <;> rw [h]
  · constructor
    · exact le_trans (length_evictOld_le _ _) (length_dequeAppend_le _ _ _)
    · intro t ht
      have hf := evictOld_fresh now _ hp t ht
      simpa [FLOOD_WINDOW_SEC] using hf
  · simp

-- ============ ENFORCEMENT STEP LEMMAS (for claim C2) ============

/-- One plain group message through the pipeline while the window stays at or
under the flood limit: the timestamp is appended and nothing else happens. -/
theorem enforce_step_quiet (st : BotState) (dq : List Int) (now : Int)
    (hs : dget st.SETTINGS "1" = some defaultSettings)
    (hl : dget st.LOCKS "1" = some defaultLocks)
    (hb : bucketOf st 1 2 = dq)
    (hlen : dq.length + 1 ≤ 8)
    (hfresh : ∀ t ∈ dq, now - t ≤ 10) :
    enforcement_handler envAllOk st updPlain now = (setFlood st 1 2 (dq ++ [now]), []) := by
  have hcl := chat_locks_default st hl
  have hcs := chat_settings_default st hs
  have hda : dequeAppend FLOOD_BUCKET_CAP dq now = dq ++ [now] :=
    dequeAppend_of_lt _ _ _ (by unfold FLOOD_BUCKET_CAP; omega)
  have hev : evictOld now (dq ++ [now]) = dq ++ [now] := by
    apply evictOld_of_fresh
    intro t ht
    rcases List.mem_append.mp ht with h | h
    · have := hfresh t h
      unfold FLOOD_WINDOW_SEC
      omega
    · simp at h
      subst h
      unfold FLOOD_WINDOW_SEC
      omega
  have hlen2 : ((dq ++ [now]).length > 8) = False := by
    simp
    omega
  simp only [enforcement_handler, floodPhase, show is_group updPlain = true from rfl, if_true,
    show updPlain.chat_id = 1 from rfl, hcl, hcs, show updPlain.has_user = true from rfl,
    show updPlain.user_id = 2 from rfl,
    show lockPhase envAllOk defaultLocks updPlain = ([], false) from rfl,
    hb, hda, hev]
  simp only [show defaultSettings.flood_limit = 8 from rfl, hlen2]
  simp

/-- One plain group message through the pipeline that pushes the window past
the flood limit with every API call succeeding: one restrict, one
announcement, and the window is cleared. -/
theorem enforce_step_mute (st : BotState) (dq : List Int) (now : Int)
    (hs : dget st.SETTINGS "1" = some defaultSettings)
    (hl : dget st.LOCKS "1" = some defaultLocks)
    (hb : bucketOf st 1 2 = dq)
    (hlen : 8 < dq.length + 1) (hlen64 : dq.length < 64)
    (hfresh : ∀ t ∈ dq, now - t ≤ 10) :
    enforcement_handler envAllOk st updPlain now
      = (setFlood st 1 2 [],
         [Effect.restrictChatMember 1 2 false (some (now + 300)),
          Effect.sendMessage 1
            ("Flood detected: muted " ++ mention_html 2 "u" ++ " for "
              ++ toString (5:Nat) ++ " min.")]) := by
  have hcl := chat_locks_default st hl
  have hcs := chat_settings_default st hs
  have hda : dequeAppend FLOOD_BUCKET_CAP dq now = dq ++ [now] :=
    dequeAppend_of_lt _ _ _ (by unfold FLOOD_BUCKET_CAP; omega)
  have hev : evictOld now (dq ++ [now]) = dq ++ [now] := by
    apply evictOld_of_fresh
    intro t ht
    rcases List.mem_append.mp ht with h | h
    · have := hfresh t h
      unfold FLOOD_WINDOW_SEC
      omega
    · simp at h
      subst h
      unfold FLOOD_WINDOW_SEC
      omega
  have hlen2 : ((dq ++ [now]).length > 8) = True := by
    simp
    omega
  simp only [enforcement_handler, floodPhase, show is_group updPlain = true from rfl, if_true,
    show updPlain.chat_id = 1 from rfl, hcl, hcs, show updPlain.has_user = true from rfl,
    show updPlain.user_id = 2 from rfl, show updPlain.user_name = "u" from rfl,
    show lockPhase envAllOk defaultLocks updPlain = ([], false) from rfl,
    hb, hda, hev]
  simp only [show defaultSettings.flood_limit = 8 from rfl,
    show defaultSettings.flood_mute_min = 5 from rfl, hlen2,
    show ∀ e, Env.apiOk envAllOk e = true from fun _ => rfl,
    show ((5:Nat):Int) * 60 = 300 by norm_num]
  simp

/-- Witness: the flood-window invariant evaluated at a concrete bucket. -/
theorem flood_window_invariant_witness :
    (bucketOf (floodPhase envAllOk stBucket updPlain 100).1 1 2).length ≤ 64 ∧
    ∀ t ∈ bucketOf (floodPhase envAllOk stBucket updPlain 100).1 1 2, (100:Int) - t ≤ 10 :=
  flood_window_invariant envAllOk stBucket updPlain 100 (by decide) (by decide) (by decide)

-- ============ CLAIM C2 ============

/-- Claim C2: for a chat with flood-limit 8 (the default), nine messages from
one user inside a 10-second window, all API calls succeeding, produce exactly
one mute (a restrict of the send permission until `t9 + 5*60`) fired on the
ninth message, after which the flood window is cleared; the tenth message,
sent after the clear, appends its timestamp but does not re-trigger a mute
(the whole 10-message trace still holds exactly one restrict). -/
theorem flood_ninth_message_mutes
    (t1 t2 t3 t4 t5 t6 t7 t8 t9 t10 : Int)
    (h12 : t1 ≤ t2) (h23 : t2 ≤ t3) (h34 : t3 ≤ t4) (h45 : t4 ≤ t5)
    (h56 : t5 ≤ t6) (h67 : t6 ≤ t7) (h78 : t7 ≤ t8) (h89 : t8 ≤ t9)
    (h910 : t9 ≤ t10) (hw : t9 - t1 ≤ 10) :
    (runEnforce envAllOk stInit updPlain [t1,t2,t3,t4,t5,t6,t7,t8,t9]).2 = [Effect.restrictChatMember 1 2 false (some (t9 + 300)), Effect.sendMessage 1 ("Flood detected: muted " ++ mention_html 2 "u" ++ " for " ++ toString (5:Nat) ++ " min.")]
    ∧ bucketOf (runEnforce envAllOk stInit updPlain [t1,t2,t3,t4,t5,t6,t7,t8,t9]).1 1 2 = []
    ∧ (runEnforce envAllOk stInit updPlain [t1,t2,t3,t4,t5,t6,t7,t8,t9,t10]).2 = [Effect.restrictChatMember 1 2 false (some (t9 + 300)), Effect.sendMessage 1 ("Flood detected: muted " ++ mention_html 2 "u" ++ " for " ++ toString (5:Nat) ++ " min.")]
    ∧ bucketOf (runEnforce envAllOk stInit updPlain [t1,t2,t3,t4,t5,t6,t7,t8,t9,t10]).1 1 2 = [t10] := by
  have q1 : enforcement_handler envAllOk stInit updPlain t1
      = ((setFlood stInit 1 2 [t1]), []) := by
    have h := enforce_step_quiet stInit [] t1 rfl rfl rfl (by simp) (by simp)
    simpa using h
  have q2 : enforcement_handler envAllOk (setFlood stInit 1 2 [t1]) updPlain t2
      = ((setFlood (setFlood stInit 1 2 [t1]) 1 2 [t1, t2]), []) := by
    have h := enforce_step_quiet (setFlood stInit 1 2 [t1]) [t1] t2 rfl rfl (bucketOf_setFlood _ _ _ _) (by simp) ?fr2
    · simpa using h
    case fr2 =>
      intro t ht
      simp at ht
      rcases ht with rfl <;> omega
  have q3 : enforcement_handler envAllOk (setFlood (setFlood stInit 1 2 [t1]) 1 2 [t1, t2]) updPlain t3
      = ((setFlood (setFlood (setFlood stInit 1 2 [t1]) 1 2 [t1, t2]) 1 2 [t1, t2, t3]), []) := by
    have h := enforce_step_quiet (setFlood (setFlood stInit 1 2 [t1]) 1 2 [t1, t2]) [t1, t2] t3 rfl rfl (bucketOf_setFlood _ _ _ _) (by simp) ?fr3
    · simpa using h
    case fr3 =>
      intro t ht
      simp at ht
      rcases ht with rfl|rfl <;> omega
  have q4 : enforcement_handler envAllOk (setFlood (setFlood (setFlood stInit 1 2 [t1]) 1 2 [t1, t2]) 1 2 [t1, t2, t3]) updPlain t4
      = ((setFlood (setFlood (setFlood (setFlood stInit 1 2 [t1]) 1 2 [t1, t2]) 1 2 [t1, t2, t3]) 1 2 [t1, t2, t3, t4]), []) := by
    have h := enforce_step_quiet (setFlood (setFlood (setFlood stInit 1 2 [t1]) 1 2 [t1, t2]) 1 2 [t1, t2, t3]) [t1, t2, t3] t4 rfl rfl (bucketOf_setFlood _ _ _ _) (by simp) ?fr4
    · simpa using h
    case fr4 =>
      intro t ht
      simp at ht
      rcases ht with rfl|rfl|rfl <;> omega
  have q5 : enforcement_handler envAllOk (setFlood (setFlood (setFlood (setFlood stInit 1 2 [t1]) 1 2 [t1, t2]) 1 2 [t1, t2, t3]) 1 2 [t1, t2, t3, t4]) updPlain t5
      = ((setFlood (setFlood (setFlood (setFlood (setFlood stInit 1 2 [t1]) 1 2 [t1, t2]) 1 2 [t1, t2, t3]) 1 2 [t1, t2, t3, t4]) 1 2 [t1, t2, t3, t4, t5]), []) := by
    have h := enforce_step_quiet (setFlood (setFlood (setFlood (setFlood stInit 1 2 [t1]) 1 2 [t1, t2]) 1 2 [t1, t2, t3]) 1 2 [t1, t2, t3, t4]) [t1, t2, t3, t4] t5 rfl rfl (bucketOf_setFlood _ _ _ _) (by simp) ?fr5
    · simpa using h
    case fr5 =>
      intro t ht
      simp at ht
      rcases ht with rfl|rfl|rfl|rfl <;> omega
  have q6 : enforcement_handler envAllOk (setFlood (setFlood (setFlood (setFlood (setFlood stInit 1 2 [t1]) 1 2 [t1, t2]) 1 2 [t1, t2, t3]) 1 2 [t1, t2, t3, t4]) 1 2 [t1, t2, t3, t4, t5]) updPlain t6
      = ((setFlood (setFlood (setFlood (setFlood (setFlood (setFlood stInit 1 2 [t1]) 1 2 [t1, t2]) 1 2 [t1, t2, t3]) 1 2 [t1, t2, t3, t4]) 1 2 [t1, t2, t3, t4, t5]) 1 2 [t1, t2, t3, t4, t5, t6]), []) := by
    have h := enforce_step_quiet (setFlood (setFlood (setFlood (setFlood (setFlood stInit 1 2 [t1]) 1 2 [t1, t2]) 1 2 [t1, t2, t3]) 1 2 [t1, t2, t3, t4]) 1 2 [t1, t2, t3, t4, t5]) [t1, t2, t3, t4, t5] t6 rfl rfl (bucketOf_setFlood _ _ _ _) (by simp) ?fr6
    · simpa using h
    case fr6 =>
      intro t ht
      simp at ht
      rcases ht with rfl|rfl|rfl|rfl|rfl <;> omega
  have q7 : enforcement_handler envAllOk (setFlood (setFlood (setFlood (setFlood (setFlood (setFlood stInit 1 2 [t1]) 1 2 [t1, t2]) 1 2 [t1, t2, t3]) 1 2 [t1, t2, t3, t4]) 1 2 [t1, t2, t3, t4, t5]) 1 2 [t1, t2, t3, t4, t5, t6]) updPlain t7
      = ((setFlood (setFlood (setFlood (setFlood (setFlood (setFlood (setFlood stInit 1 2 [t1]) 1 2 [t1, t2]) 1 2 [t1, t2, t3]) 1 2 [t1, t2, t3, t4]) 1 2 [t1, t2, t3, t4, t5]) 1 2 [t1, t2, t3, t4, t5, t6]) 1 2 [t1, t2, t3, t4, t5, t6, t7]), []) := by
    have h := enforce_step_quiet (setFlood (setFlood (setFlood (setFlood (setFlood (setFlood stInit 1 2 [t1]) 1 2 [t1, t2]) 1 2 [t1, t2, t3]) 1 2 [t1, t2, t3, t4]) 1 2 [t1, t2, t3, t4, t5]) 1 2 [t1, t2, t3, t4, t5, t6]) [t1, t2, t3, t4, t5, t6] t7 rfl rfl (bucketOf_setFlood _ _ _ _) (by simp) ?fr7
    · simpa using h
    case fr7 =>
      intro t ht
      simp at ht
      rcases ht with rfl|rfl|rfl|rfl|rfl|rfl <;> omega
  have q8 : enforcement_handler envAllOk (setFlood (setFlood (setFlood (setFlood (setFlood (setFlood (setFlood stInit 1 2 [t1]) 1 2 [t1, t2]) 1 2 [t1, t2, t3]) 1 2 [t1, t2, t3, t4]) 1 2 [t1, t2, t3, t4, t5]) 1 2 [t1, t2, t3, t4, t5, t6]) 1 2 [t1, t2, t3, t4, t5, t6, t7]) updPlain t8
      = ((setFlood (setFlood (setFlood (setFlood (setFlood (setFlood (setFlood (setFlood stInit 1 2 [t1]) 1 2 [t1, t2]) 1 2 [t1, t2, t3]) 1 2 [t1, t2, t3, t4]) 1 2 [t1, t2, t3, t4, t5]) 1 2 [t1, t2, t3, t4, t5, t6]) 1 2 [t1, t2, t3, t4, t5, t6, t7]) 1 2 [t1, t2, t3, t4, t5, t6, t7, t8]), []) := by
    have h := enforce_step_quiet (setFlood (setFlood (setFlood (setFlood (setFlood (setFlood (setFlood stInit 1 2 [t1]) 1 2 [t1, t2]) 1 2 [t1, t2, t3]) 1 2 [t1, t2, t3, t4]) 1 2 [t1, t2, t3, t4, t5]) 1 2 [t1, t2, t3, t4, t5, t6]) 1 2 [t1, t2, t3, t4, t5, t6, t7]) [t1, t2, t3, t4, t5, t6, t7] t8 rfl rfl (bucketOf_setFlood _ _ _ _) (by simp) ?fr8
    · simpa using h
    case fr8 =>
      intro t ht
      simp at ht
      rcases ht with rfl|rfl|rfl|rfl|rfl|rfl|rfl <;> omega
  have q9 : enforcement_handler envAllOk (setFlood (setFlood (setFlood (setFlood (setFlood (setFlood (setFlood (setFlood stInit 1 2 [t1]) 1 2 [t1, t2]) 1 2 [t1, t2, t3]) 1 2 [t1, t2, t3, t4]) 1 2 [t1, t2, t3, t4, t5]) 1 2 [t1, t2, t3, t4, t5, t6]) 1 2 [t1, t2, t3, t4, t5, t6, t7]) 1 2 [t1, t2, t3, t4, t5, t6, t7, t8]) updPlain t9
      = ((setFlood (setFlood (setFlood (setFlood (setFlood (setFlood (setFlood (setFlood (setFlood stInit 1 2 [t1]) 1 2 [t1, t2]) 1 2 [t1, t2, t3]) 1 2 [t1, t2, t3, t4]) 1 2 [t1, t2, t3, t4, t5]) 1 2 [t1, t2, t3, t4, t5, t6]) 1 2 [t1, t2, t3, t4, t5, t6, t7]) 1 2 [t1, t2, t3, t4, t5, t6, t7, t8]) 1 2 []), [Effect.restrictChatMember 1 2 false (some (t9 + 300)), Effect.sendMessage 1 ("Flood detected: muted " ++ mention_html 2 "u" ++ " for " ++ toString (5:Nat) ++ " min.")]) := by
    have h := enforce_step_mute (setFlood (setFlood (setFlood (setFlood (setFlood (setFlood (setFlood (setFlood stInit 1 2 [t1]) 1 2 [t1, t2]) 1 2 [t1, t2, t3]) 1 2 [t1, t2, t3, t4]) 1 2 [t1, t2, t3, t4, t5]) 1 2 [t1, t2, t3, t4, t5, t6]) 1 2 [t1, t2, t3, t4, t5, t6, t7]) 1 2 [t1, t2, t3, t4, t5, t6, t7, t8]) [t1, t2, t3, t4, t5, t6, t7, t8] t9 rfl rfl (bucketOf_setFlood _ _ _ _) (by simp) (by simp) ?fr9
    · simpa using h
    case fr9 =>
      intro t ht
      simp at ht
      rcases ht with rfl|rfl|rfl|rfl|rfl|rfl|rfl|rfl <;> omega
  have q10 : enforcement_handler envAllOk (setFlood (setFlood (setFlood (setFlood (setFlood (setFlood (setFlood (setFlood (setFlood stInit 1 2 [t1]) 1 2 [t1, t2]) 1 2 [t1, t2, t3]) 1 2 [t1, t2, t3, t4]) 1 2 [t1, t2, t3, t4, t5]) 1 2 [t1, t2, t3, t4, t5, t6]) 1 2 [t1, t2, t3, t4, t5, t6, t7]) 1 2 [t1, t2, t3, t4, t5, t6, t7, t8]) 1 2 []) updPlain t10
      = ((setFlood (setFlood (setFlood (setFlood (setFlood (setFlood (setFlood (setFlood (setFlood (setFlood stInit 1 2 [t1]) 1 2 [t1, t2]) 1 2 [t1, t2, t3]) 1 2 [t1, t2, t3, t4]) 1 2 [t1, t2, t3, t4, t5]) 1 2 [t1, t2, t3, t4, t5, t6]) 1 2 [t1, t2, t3, t4, t5, t6, t7]) 1 2 [t1, t2, t3, t4, t5, t6, t7, t8]) 1 2 []) 1 2 [t10]), []) := by
    have h := enforce_step_quiet (setFlood (setFlood (setFlood (setFlood (setFlood (setFlood (setFlood (setFlood (setFlood stInit 1 2 [t1]) 1 2 [t1, t2]) 1 2 [t1, t2, t3]) 1 2 [t1, t2, t3, t4]) 1 2 [t1, t2, t3, t4, t5]) 1 2 [t1, t2, t3, t4, t5, t6]) 1 2 [t1, t2, t3, t4, t5, t6, t7]) 1 2 [t1, t2, t3, t4, t5, t6, t7, t8]) 1 2 []) [] t10 rfl rfl (bucketOf_setFlood _ _ _ _) (by simp) (by simp)
    simpa using h
  refine ⟨?_, ?_, ?_, ?_⟩ <;>
    simp [runEnforce, q1, q2, q3, q4, q5, q6, q7, q8, q9, q10, bucketOf_setFlood]

-- ============ ADMIN GATE ============

/-- Owner invocations in a group pass the gate straight to the handler body. -/
theorem gate_owner (func : Handler) (env : Env) (st : BotState) (u : Upd)
    (hg : is_group u = true) (ho : u.user_id = env.OWNER_ID) :
    require_group_and_admin func env st u = func env st u := by
  unfold require_group_and_admin
  simp [hg, ho]

/-- Claim C6: a gated command invoked outside a group is rejected before the
admin gate runs (the reply is fixed, the handler body never runs, and no
membership lookup happens, whatever the environment answers); in a group the
gated action executes exactly when the invoker is the configured owner or the
live membership lookup reports administrator or creator; any lookup failure
(`chatMemberStatus … = none`) falls into the last clause and is treated as
not-an-admin rather than propagated. -/
theorem admin_gate_spec (func : Handler) (env : Env) (st : BotState) (u : Upd) :
    (is_group u = false →
        require_group_and_admin func env st u
          = (st, [Effect.replyText "This command must be used in groups."]))
  ∧ (is_group u = true → u.user_id = env.OWNER_ID →
        require_group_and_admin func env st u = func env st u)
  ∧ (is_group u = true → u.user_id ≠ env.OWNER_ID →
        (env.chatMemberStatus u.chat_id u.user_id = some "administrator"
          ∨ env.chatMemberStatus u.chat_id u.user_id = some "creator") →
        require_group_and_admin func env st u
          = ((func env st u).1, Effect.getChatMember u.chat_id u.user_id :: (func env st u).2))
  ∧ (is_group u = true → u.user_id ≠ env.OWNER_ID →
        env.chatMemberStatus u.chat_id u.user_id ≠ some "administrator" →
        env.chatMemberStatus u.chat_id u.user_id ≠ some "creator" →
        require_group_and_admin func env st u
          = (st, [Effect.getChatMember u.chat_id u.user_id, Effect.replyText "Admins only."])) := by
  refine ⟨?_, ?_, ?_, ?_⟩
  · intro hng
    unfold require_group_and_admin
    simp [hng]
  · intro hg ho
    exact gate_owner func env st u hg ho
  · intro hg ho hstat
    unfold require_group_and_admin
    rcases hstat with h | h <;> simp [hg, ho, is_user_admin_in_chat, h]
  · intro hg ho h1 h2
    unfold require_group_and_admin
    cases hst : env.chatMemberStatus u.chat_id u.user_id with
    | none => simp [hg, ho, is_user_admin_in_chat, hst]
    | some s =>
      have hs1 : s ≠ "administrator" := fun hc => h1 (by rw [hst, hc])
      have hs2 : s ≠ "creator" := fun hc => h2 (by rw [hst, hc])
      simp [hg, ho, is_user_admin_in_chat, hst, hs1, hs2]

/-- Witness for the admin gate: a failing membership lookup for a non-owner
yields the admins-only rejection. -/
theorem admin_gate_spec_witness :
    require_group_and_admin cmd_rules envLookupFail stInit updPlain
      = (stInit, [Effect.getChatMember 1 2, Effect.replyText "Admins only."]) :=
  (admin_gate_spec cmd_rules envLookupFail stInit updPlain).2.2.2
    (by decide) (by decide) (by decide) (by decide)

-- ============ CLAIM C3 ============

/-- The ordered lock scan finds no violation exactly when no enabled lock matches. -/
theorem firstLockMatch_none_iff (locks : LockFlags) (u : Upd) :
    firstLockMatch locks u = none
      ↔ ((locks.links && hasLinkEntity u) || (locks.media && hasMediaContent u)
          || (locks.stickers && u.sticker)) = false := by
  unfold firstLockMatch
  split_ifs with h1 h2 h3 <;> simp_all

/-- Claim C3: on a group message the pipeline checks the locks first (links,
media, stickers, in that order - all three produce the same single
`delete_message` attempt, so the first match determines the one attempt) and
then the flood accounting.  A matching enabled lock whose delete succeeds
stops processing: the trace is exactly that one delete and the flood buckets
are untouched.  A failing delete is swallowed and the handler still completes,
falling through to flood accounting; with no matching lock only the flood
accounting runs. -/
theorem enforcement_pipeline_spec (env : Env) (st : BotState) (u : Upd) (now : Int)
    (hg : is_group u = true) :
    ((((chat_locks st u.chat_id).1.links && hasLinkEntity u)
        || ((chat_locks st u.chat_id).1.media && hasMediaContent u)
        || ((chat_locks st u.chat_id).1.stickers && u.sticker)) = true →
      env.apiOk (Effect.deleteMessage u.chat_id u.message_id) = true →
      enforcement_handler env st u now
        = ((chat_locks st u.chat_id).2, [Effect.deleteMessage u.chat_id u.message_id])
      ∧ (chat_locks st u.chat_id).2.FLOOD_BUCKETS = st.FLOOD_BUCKETS)
  ∧ ((((chat_locks st u.chat_id).1.links && hasLinkEntity u)
        || ((chat_locks st u.chat_id).1.media && hasMediaContent u)
        || ((chat_locks st u.chat_id).1.stickers && u.sticker)) = true →
      env.apiOk (Effect.deleteMessage u.chat_id u.message_id) = false →
      enforcement_handler env st u now
        = ((floodPhase env (chat_locks st u.chat_id).2 u now).1,
           Effect.deleteMessage u.chat_id u.message_id
             :: (floodPhase env (chat_locks st u.chat_id).2 u now).2))
  ∧ ((((chat_locks st u.chat_id).1.links && hasLinkEntity u)
        || ((chat_locks st u.chat_id).1.media && hasMediaContent u)
        || ((chat_locks st u.chat_id).1.stickers && u.sticker)) = false →
      enforcement_handler env st u now
        = ((floodPhase env (chat_locks st u.chat_id).2 u now).1,
           (floodPhase env (chat_locks st u.chat_id).2 u now).2)) := by
  unfold enforcement_handler lockPhase
  refine ⟨?_, ?_, ?_⟩
  · intro hm hok
    cases hfm : firstLockMatch (chat_locks st u.chat_id).1 u with
    | none =>
      rw [firstLockMatch_none_iff] at hfm
      rw [hm] at hfm
      simp at hfm
    | some k =>
      simp only [hg, if_true, hfm, hok]
      exact ⟨by simp, rfl⟩
  · intro hm hok
    cases hfm : firstLockMatch (chat_locks st u.chat_id).1 u with
    | none =>
      rw [firstLockMatch_none_iff] at hfm
      rw [hm] at hfm
      simp at hfm
    | some k =>
      simp only [hg, if_true, hfm, hok]
      simp
  · intro hm
    have hfm : firstLockMatch (chat_locks st u.chat_id).1 u = none :=
      (firstLockMatch_none_iff _ _).mpr hm
    simp only [hg, if_true, hfm]
    simp

/-- Witness for the pipeline: a URL message in a links-locked chat is deleted
and flood accounting is skipped. -/
theorem enforcement_pipeline_spec_witness :
    enforcement_handler envAllOk stLinksLocked updLink 0
      = ((chat_locks stLinksLocked 1).2, [Effect.deleteMessage 1 42])
    ∧ (chat_locks stLinksLocked 1).2.FLOOD_BUCKETS = stLinksLocked.FLOOD_BUCKETS :=
  (enforcement_pipeline_spec envAllOk stLinksLocked updLink 0 (by decide)).1
    (by decide) (by decide)

-- ============ CLAIM C9 ============

/-- Claim C9: `/setmaxwarns` clamps its numeric argument into [1,10] before
storing it as the chat max-warn threshold. -/
theorem setmaxwarns_clamps (env : Env) (st : BotState) (u : Upd) (a : String) (rest : List String)
    (hg : is_group u = true) (ho : u.user_id = env.OWNER_ID)
    (hargs : u.args = a :: rest) (hd : pyIsDigit a = true) :
    ((chat_settings (cmd_setmaxwarns env st u).1 u.chat_id).1).max_warns
        = max 1 (min 10 (pyInt a))
    ∧ 1 ≤ max 1 (min 10 (pyInt a)) ∧ max 1 (min 10 (pyInt a)) ≤ 10 := by
  unfold cmd_setmaxwarns
  rw [gate_owner _ _ _ _ hg ho]
  unfold cmd_setmaxwarns_body
  simp only [hargs, hd, if_true]
  rw [chat_settings_fst]
  simp [dget_dset_self]

/-- Witness for the clamp: 0 stores 1, 999 stores 10, 5 stores 5. -/
theorem setmaxwarns_clamps_witness :
    ((chat_settings (cmd_setmaxwarns envAllOk stInit (updArg "0")).1 1).1).max_warns = 1
    ∧ ((chat_settings (cmd_setmaxwarns envAllOk stInit (updArg "999")).1 1).1).max_warns = 10
    ∧ ((chat_settings (cmd_setmaxwarns envAllOk stInit (updArg "5")).1 1).1).max_warns = 5 := by
  refine ⟨?_, ?_, ?_⟩
  · exact ((setmaxwarns_clamps envAllOk stInit (updArg "0") "0" []
      (by decide) (by decide) (by decide) (by decide)).1).trans (by decide)
  · exact ((setmaxwarns_clamps envAllOk stInit (updArg "999") "999" []
      (by decide) (by decide) (by decide) (by decide)).1).trans (by decide)
  · exact ((setmaxwarns_clamps envAllOk stInit (updArg "5") "5" []
      (by decide) (by decide) (by decide) (by decide)).1).trans (by decide)

-- ============ CLAIM C8 ============

/-- Claim C8: for any lock-name argument outside {links, media, stickers}
(a missing argument included), `/lock` and `/unlock` leave the whole state -
in particular the lock table - unmodified, persist nothing (no `saveAll` in
the trace), and reply with the usage message. -/
theorem lock_unlock_bad_name (env : Env) (st : BotState) (u : Upd)
    (hg : is_group u = true) (ho : u.user_id = env.OWNER_ID)
    (hbad : ∀ a, u.args.head? = some a → pyLower a ∉ LOCKABLES) :
    cmd_lock env st u = (st, [Effect.replyText "Usage: /lock <links|media|stickers>"])
    ∧ cmd_unlock env st u = (st, [Effect.replyText "Usage: /unlock <links|media|stickers>"]) := by
  unfold cmd_lock cmd_unlock
  rw [gate_owner _ _ _ _ hg ho, gate_owner _ _ _ _ hg ho]
  unfold cmd_lock_body cmd_unlock_body
  cases hu : u.args with
  | nil => simp
  | cons a rest =>
    have hb := hbad a (by simp [hu])
    simp [hb]

/-- Witness for the lock-name validation at the argument badname. -/
theorem lock_unlock_bad_name_witness :
    cmd_lock envAllOk stInit updLockBad
      = (stInit, [Effect.replyText "Usage: /lock <links|media|stickers>"])
    ∧ cmd_unlock envAllOk stInit updLockBad
      = (stInit, [Effect.replyText "Usage: /unlock <links|media|stickers>"]) :=
  lock_unlock_bad_name envAllOk stInit updLockBad (by decide) (by decide)
    (by intro a ha; simp [updLockBad, updPlain] at ha; subst ha; decide)

-- ============ CLAIM C10 ============

/-- Claim C10: the public reads `/rules` and `/warnings` never flush the four
persisted tables to disk (no `saveAll` effect) and never change the warn,
note, or lock tables, even though `/rules` lazily inserts a default settings
record for a never-before-seen chat into the in-memory settings map. -/
theorem rules_warnings_read_only (env : Env) (st : BotState) (u : Upd) :
    Effect.saveAll ∉ (cmd_rules env st u).2
    ∧ (cmd_rules env st u).1.WARNS = st.WARNS
    ∧ (cmd_rules env st u).1.NOTES = st.NOTES
    ∧ (cmd_rules env st u).1.LOCKS = st.LOCKS
    ∧ (dget (cmd_rules env st u).1.SETTINGS (toString u.chat_id)).isSome = true
    ∧ Effect.saveAll ∉ (cmd_warnings env st u).2
    ∧ (cmd_warnings env st u).1.WARNS = st.WARNS
    ∧ (cmd_warnings env st u).1.NOTES = st.NOTES
    ∧ (cmd_warnings env st u).1.LOCKS = st.LOCKS := by
  unfold cmd_rules cmd_warnings
  refine ⟨by simp, rfl, rfl, rfl, ?_, ?_, ?_, ?_, ?_⟩
  · unfold chat_settings
    simp only []
    exact dget_dsetdefault_isSome _ _ _
  all_goals cases ht : _get_target_from_reply_or_arg u <;> simp [ht, chat_settings]

-- ============ CLAIM C4 ============

/-- Claim C4 counterexample: `/purge 1` with every deletion succeeding
deletes 2 messages (ids 100 and 99 - the walk starts at the command message
itself), exceeding min(N,300) = 1, and reports the count 2. -/
theorem purge_overdelete_counterexample :
    (cmd_purge envAllOk stInit updNum1).2.countP isDeleteEff = 2
    ∧ ¬ ((cmd_purge envAllOk stInit updNum1).2.countP isDeleteEff ≤ min 300 1)
    ∧ Effect.replyText "Purged 2 messages." ∈ (cmd_purge envAllOk stInit updNum1).2 := by
  decide

/-- Claim C4 (amended): numeric mode attempts deletion of min(N,300)+1
message ids, walking backward from the command message id (inclusive; the
command message itself is the first id); reply mode attempts every id in the
inclusive range from the replied-to id to the command id; every id is
attempted whatever the per-call outcome (failures are skipped silently), and
the reported count is the number of successful deletions. -/
theorem purge_spec (env : Env) (st : BotState) (u : Upd)
    (hg : is_group u = true) (ho : u.user_id = env.OWNER_ID) :
    (∀ a rest, u.args = a :: rest → pyIsDigit a = true →
        cmd_purge env st u
          = (st, (rangeDown u.message_id (min 300 (pyInt a))).map
                    (fun mid => Effect.deleteMessage u.chat_id mid)
              ++ [Effect.replyText ("Purged "
                    ++ toString ((rangeDown u.message_id (min 300 (pyInt a))).filter
                        (fun mid => env.apiOk (Effect.deleteMessage u.chat_id mid))).length
                    ++ " messages.")])
        ∧ (rangeDown u.message_id (min 300 (pyInt a))).length = min 300 (pyInt a) + 1)
  ∧ (∀ rid ruid, u.args = [] → u.reply_to = some (rid, ruid) →
        cmd_purge env st u
          = (st, (rangeUp rid (u.message_id + 1)).map
                    (fun mid => Effect.deleteMessage u.chat_id mid)
              ++ [Effect.replyText ("Purged "
                    ++ toString ((rangeUp rid (u.message_id + 1)).filter
                        (fun mid => env.apiOk (Effect.deleteMessage u.chat_id mid))).length
                    ++ " messages (best effort).")]))
  ∧ (∀ rid mid, rid ≤ u.message_id →
        (mid ∈ rangeUp rid (u.message_id + 1) ↔ rid ≤ mid ∧ mid ≤ u.message_id)) := by
  refine ⟨?_, ?_, ?_⟩
  · intro a rest hargs hd
    unfold cmd_purge
    rw [gate_owner _ _ _ _ hg ho]
    unfold cmd_purge_body
    refine ⟨?_, ?_⟩
    · simp only [hargs, hd, if_true]
    · unfold rangeDown
      rw [List.length_map, List.length_range]
  · intro rid ruid hargs hrep
    unfold cmd_purge
    rw [gate_owner _ _ _ _ hg ho]
    unfold cmd_purge_body
    simp only [hargs, hrep]
  · intro rid mid hle
    unfold rangeUp
    simp only [Int.ofNat_eq_coe, List.mem_map, List.mem_range]
    have hn : ((u.message_id + 1 - rid).toNat : Int) = u.message_id + 1 - rid :=
      Int.toNat_of_nonneg (by omega)
    constructor
    · rintro ⟨i, hi, rfl⟩
      have hi2 : (i : Int) < ((u.message_id + 1 - rid).toNat : Int) := Int.ofNat_lt.mpr hi
      rw [hn] at hi2
      constructor
      · omega
      · omega
    · rintro ⟨h1, h2⟩
      have hm : ((mid - rid).toNat : Int) = mid - rid := Int.toNat_of_nonneg (by omega)
      refine ⟨(mid - rid).toNat, ?_, ?_⟩
      · have : ((mid - rid).toNat : Int) < ((u.message_id + 1 - rid).toNat : Int) := by
          rw [hm, hn]
          omega
        exact_mod_cast this
      · rw [hm]
        ring

/-- Witness for the purge spec: `/purge 1` from message 100 attempts ids 100
and 99 and reports the success count. -/
theorem purge_spec_witness :
    cmd_purge envAllOk stInit updNum1
      = (stInit, (rangeDown 100 (min 300 (pyInt "1"))).map
            (fun mid => Effect.deleteMessage 1 mid)
          ++ [Effect.replyText ("Purged "
                ++ toString ((rangeDown 100 (min 300 (pyInt "1"))).filter
                    (fun mid => Env.apiOk envAllOk (Effect.deleteMessage 1 mid))).length
                ++ " messages.")])
    ∧ (rangeDown 100 (min 300 (pyInt "1"))).length = min 300 (pyInt "1") + 1 :=
  (purge_spec envAllOk stInit updNum1 (by decide) (by decide)).1 "1" []
    (by decide) (by decide)

-- ============ CLAIM C1 ============

/-- Claim C1 counterexample: user 2 sits at 2 of 3 warns in chat 1; the owner
warns again, reaching the max, and the kick raises `BadRequest`.  The failure
is reported, exactly one kick was attempted, but the counter holds 3, not 0:
the reset has NOT already occurred, contradicting the claim that the counter
reset precedes the ban confirmation. -/
theorem warn_reset_counterexample :
    warnCount (cmd_warn envKickFail stTwoWarns updOwnerReply).1 1 2 = 3
    ∧ warnCount (cmd_warn envKickFail stTwoWarns updOwnerReply).1 1 2 ≠ 0
    ∧ Effect.replyText "Auto-ban failed: err"
        ∈ (cmd_warn envKickFail stTwoWarns updOwnerReply).2
    ∧ (cmd_warn envKickFail stTwoWarns updOwnerReply).2.countP isKickEff = 1 := by
  decide

/-- Claim C1 (amended): when the incremented count reaches the chat max,
`/warn` makes exactly one kick attempt; if the kick succeeds the counter is
reset to 0 in the same operation; if the kick fails the failure is reported
to the invoker and the counter is NOT reset - it keeps the incremented value
(the reset happens only after a successful ban).  Below the max no kick is
attempted and the counter simply holds the increment. -/
theorem warn_autoban_spec (env : Env) (st : BotState) (u : Upd) (target : Int)
    (hg : is_group u = true) (ho : u.user_id = env.OWNER_ID)
    (ht : _get_target_from_reply_or_arg u = some target) :
    (((dget st.SETTINGS (toString u.chat_id)).getD defaultSettings).max_warns
        ≤ warnCount st u.chat_id target + 1 →
      env.apiOk (Effect.kickChatMember u.chat_id target) = true →
      warnCount (cmd_warn env st u).1 u.chat_id target = 0
      ∧ (cmd_warn env st u).2.countP isKickEff = 1)
  ∧ (((dget st.SETTINGS (toString u.chat_id)).getD defaultSettings).max_warns
        ≤ warnCount st u.chat_id target + 1 →
      env.apiOk (Effect.kickChatMember u.chat_id target) = false →
      warnCount (cmd_warn env st u).1 u.chat_id target = warnCount st u.chat_id target + 1
      ∧ (cmd_warn env st u).2.countP isKickEff = 1
      ∧ Effect.replyText
          ("Auto-ban failed: " ++ env.errMsg (Effect.kickChatMember u.chat_id target))
          ∈ (cmd_warn env st u).2)
  ∧ (warnCount st u.chat_id target + 1
        < ((dget st.SETTINGS (toString u.chat_id)).getD defaultSettings).max_warns →
      warnCount (cmd_warn env st u).1 u.chat_id target = warnCount st u.chat_id target + 1
      ∧ (cmd_warn env st u).2.countP isKickEff = 0) := by
  have hwrap : cmd_warn env st u = cmd_warn_body env st u := by
    unfold cmd_warn
    exact gate_owner _ _ _ _ hg ho
  have hset : ∀ w, ({ st with WARNS := w } : BotState).SETTINGS = st.SETTINGS := fun _ => rfl
  rw [hwrap]
  unfold cmd_warn_body
  simp only [ht]
  rw [chat_settings_fst]
  simp only [hset]
  refine ⟨?_, ?_, ?_⟩
  · intro hmax hok
    rw [if_pos (by exact hmax), hok]
    simp only [if_true]
    constructor
    · simp only [warnCount, chat_settings]
      simp [dget_dset_self]
    · simp [isKickEff, List.countP_cons, List.countP_nil]
  · intro hmax hok
    rw [if_pos (by exact hmax), hok]
    simp only [Bool.false_eq_true, if_false]
    refine ⟨?_, ?_, ?_⟩
    · simp only [warnCount, chat_settings]
      simp [dget_dset_self]
    · simp [isKickEff, List.countP_cons, List.countP_nil]
    · simp
  · intro hlt
    simp only [warnCount] at hlt
    rw [if_neg (by omega)]
    constructor
    · simp only [warnCount, chat_settings]
      simp [dget_dset_self]
    · simp [isKickEff, List.countP_cons, List.countP_nil]

/-- Witness for the warn spec: with a succeeding kick the third warn bans and
resets the counter to 0. -/
theorem warn_autoban_spec_witness :
    warnCount (cmd_warn envAllOk stTwoWarns updOwnerReply).1 1 2 = 0
    ∧ (cmd_warn envAllOk stTwoWarns updOwnerReply).2.countP isKickEff = 1 :=
  (warn_autoban_spec envAllOk stTwoWarns updOwnerReply 2 (by decide) (by decide)
    (by decide)).1 (by decide) (by decide)

-- ============ CLAIM C7 ============

/-- Claim C7: note names are case-folded on write and read - saving under any
casing and reading back any casing of the same name returns the saved text -
and a second save under a case-variant of the same name overwrites the entry
(the lookup returns the newer text and the chat note table keeps exactly one
entry under the folded key). -/
theorem notes_casefold_overwrite (env : Env) (st : BotState) (u1 u2 u3 : Upd)
    (name name2 name3 : String) (rest1 rest3 : List String)
    (hg1 : is_group u1 = true) (ho1 : u1.user_id = env.OWNER_ID)
    (hg3 : is_group u3 = true) (ho3 : u3.user_id = env.OWNER_ID)
    (hc2 : u2.chat_id = u1.chat_id) (hc3 : u3.chat_id = u1.chat_id)
    (ha1 : u1.args = name :: rest1) (hr1 : rest1 ≠ [])
    (ha2 : u2.args.head? = some name2) (hn2 : pyLower name2 = pyLower name)
    (htx : String.intercalate " " rest1 ≠ "")
    (ha3 : u3.args = name3 :: rest3) (hr3 : rest3 ≠ []) (hn3 : pyLower name3 = pyLower name)
    (hnodup : (((dget st.NOTES (toString u1.chat_id)).getD []).map Prod.fst).Nodup) :
    (cmd_get env (cmd_save env st u1).1 u2).2
        = [Effect.replyText (String.intercalate " " rest1)]
    ∧ dget ((dget (cmd_save env (cmd_save env st u1).1 u3).1.NOTES
          (toString u1.chat_id)).getD []) (pyLower name)
        = some (String.intercalate " " rest3)
    ∧ ((dget (cmd_save env (cmd_save env st u1).1 u3).1.NOTES
          (toString u1.chat_id)).getD []).countP (fun e => decide (e.1 = pyLower name)) = 1 := by
  have hw1 : cmd_save env st u1 = cmd_save_body env st u1 := by
    unfold cmd_save
    exact gate_owner _ _ _ _ hg1 ho1
  have hlen1 : ¬(u1.args.length < 2) := by
    rw [ha1]
    cases rest1 with
    | nil => exact absurd rfl hr1
    | cons b t => simp
  obtain ⟨t2, ht2⟩ : ∃ t, u2.args = name2 :: t := by
    cases hu : u2.args with
    | nil => rw [hu] at ha2; simp at ha2
    | cons b t =>
      rw [hu] at ha2
      simp at ha2
      exact ⟨t, by rw [ha2]⟩
  have hget1 : dget (cmd_save env st u1).1.NOTES (toString u1.chat_id)
      = some (dset ((dget st.NOTES (toString u1.chat_id)).getD []) (pyLower name)
          (String.intercalate " " rest1)) := by
    rw [hw1]
    unfold cmd_save_body
    rw [if_neg hlen1]
    simp only [ha1]
    exact dget_dset_self _ _ _
  refine ⟨?_, ?_, ?_⟩
  · unfold cmd_get
    simp only [ht2, hc2, hget1, hn2, dget_dset_self, Option.getD_some]
    rw [if_neg htx]
  · have hw3 : cmd_save env (cmd_save env st u1).1 u3
        = cmd_save_body env (cmd_save env st u1).1 u3 := by
      unfold cmd_save
      exact gate_owner _ _ _ _ hg3 ho3
    have hlen3 : ¬(u3.args.length < 2) := by
      rw [ha3]
      cases rest3 with
      | nil => exact absurd rfl hr3
      | cons b t => simp
    rw [hw3]
    unfold cmd_save_body
    rw [if_neg hlen3]
    simp only [ha3, hc3, hget1, Option.getD_some, hn3, dget_dset_self]
  · have hw3 : cmd_save env (cmd_save env st u1).1 u3
        = cmd_save_body env (cmd_save env st u1).1 u3 := by
      unfold cmd_save
      exact gate_owner _ _ _ _ hg3 ho3
    have hlen3 : ¬(u3.args.length < 2) := by
      rw [ha3]
      cases rest3 with
      | nil => exact absurd rfl hr3
      | cons b t => simp
    rw [hw3]
    unfold cmd_save_body
    rw [if_neg hlen3]
    simp only [ha3, hc3, hget1, Option.getD_some, hn3, dget_dset_self]
    exact countP_dset_key _ _ _ (keys_nodup_dset _ _ _ hnodup)

/-- Witness for the note round trip: save Foo, read foo, overwrite as FOO. -/
theorem notes_casefold_overwrite_witness :
    (cmd_get envAllOk (cmd_save envAllOk stInit updSaveFoo).1 updGetFoo).2
      = [Effect.replyText (String.intercalate " " ["hello"])]
    ∧ dget ((dget (cmd_save envAllOk (cmd_save envAllOk stInit updSaveFoo).1
          updSaveFOO).1.NOTES (toString (1:Int))).getD []) (pyLower "Foo")
      = some (String.intercalate " " ["bye"])
    ∧ ((dget (cmd_save envAllOk (cmd_save envAllOk stInit updSaveFoo).1
          updSaveFOO).1.NOTES (toString (1:Int))).getD []).countP
        (fun e => decide (e.1 = pyLower "Foo")) = 1 :=
  notes_casefold_overwrite envAllOk stInit updSaveFoo updGetFoo updSaveFOO
    "Foo" "foo" "FOO" ["hello"] ["bye"]
    (by decide) (by decide) (by decide) (by decide) (by decide) (by decide)
    (by decide) (by decide) (by decide) (by decide) (by decide) (by decide)
    (by decide) (by decide) (by decide)

/-- Witness for the flood scenario at concrete timestamps 0..8 and a tenth
message at time 8. -/
theorem flood_ninth_message_mutes_witness :
    (runEnforce envAllOk stInit updPlain [0,1,2,3,4,5,6,7,8]).2
      = [Effect.restrictChatMember 1 2 false (some (8 + 300)),
         Effect.sendMessage 1 ("Flood detected: muted " ++ mention_html 2 "u"
            ++ " for " ++ toString (5:Nat) ++ " min.")]
    ∧ bucketOf (runEnforce envAllOk stInit updPlain [0,1,2,3,4,5,6,7,8]).1 1 2 = []
    ∧ (runEnforce envAllOk stInit updPlain [0,1,2,3,4,5,6,7,8,8]).2
      = [Effect.restrictChatMember 1 2 false (some (8 + 300)),
         Effect.sendMessage 1 ("Flood detected: muted " ++ mention_html 2 "u"
            ++ " for " ++ toString (5:Nat) ++ " min.")]
    ∧ bucketOf (runEnforce envAllOk stInit updPlain [0,1,2,3,4,5,6,7,8,8]).1 1 2 = [8] :=
  flood_ninth_message_mutes 0 1 2 3 4 5 6 7 8 8
    (by decide) (by decide) (by decide) (by decide) (by decide) (by decide)
    (by decide) (by decide) (by decide) (by decide)

end Bot
